import Mathlib

/-!
Shallow embedding of `src/utils/xGrowableArray.c` (FreeSurfer), a type-erased
growable contiguous array with an integrated sequential iterator.

Modelling conventions:
* Machine `int` fields are modelled as `Nat` (the specification's contract has
  `elementSize > 0` and `initialCapacity > 0`; no claim concerns overflow).
* The byte buffer `mpData` is an `Option (List Nat)`: `some buf` is an
  allocated buffer of `buf.length` bytes, `none` is a NULL pointer (as after
  `free` in the failing path of `xGArr_Clear`).
* `malloc` is modelled by a `Bool` argument per allocation call site telling
  whether that allocation succeeds; fresh storage contents are unspecified in
  C, modelled here as zero bytes.
* `memcpy(dst+off, src, n)` is modelled by `writeBytes`/`readBytes` on lists.
* A C handle `xGrowableArrayRef` (a possibly-NULL pointer) is
  `Option xGrowableArray`; the pointer-to-handle parameter of `xGArr_Delete`
  is `Option (Option xGrowableArray)`.
-/

namespace XGArr

/-- Error codes of `xGArr_tErr` (order follows `xGArr_ksaErrorStrings`). -/
inductive xGArr_tErr where
  | NoErr
  | InvalidObject
  | InvalidSignature
  | AllocationFailed
  | LastItem
  | InvalidErrorCode
  deriving DecidableEq, Repr

/-- Modelled from the spec: the validity tag (`xGArr_kSignature`) is defined in
the header `xGrowableArray.h`, which is not part of the sources; the spec only
requires it to be a sentinel distinguishing live instances. Any value other
than the trash value `0x1` written by `xGArr_Delete` is faithful; we fix one. -/
def xGArr_kSignature : Nat := 0x9d9d

/-- The `xGrowableArray` struct: signature tag, current item count, capacity in
items, element size in bytes, storage size in bytes, iterator cursor, and the
storage buffer. -/
structure xGrowableArray where
  mSignature : Nat
  mnNumItems : Nat
  mnMaxNumItems : Nat
  mnItemSizeBytes : Nat
  mnMaxSizeBytes : Nat
  mnNext : Nat
  mpData : Option (List Nat)
  deriving DecidableEq, Repr

/-- Fresh storage returned by a successful `malloc n`: `n` bytes of
unspecified content, modelled as zeros. -/
def mallocBytes (n : Nat) : List Nat := List.replicate n 0

/-- `memcpy(out, buf+off, len)`: read `len` bytes of `buf` starting at
offset `off`. -/
def readBytes (buf : List Nat) (off len : Nat) : List Nat :=
  (buf.drop off).take len

/-- `memcpy(buf+off, src, src.length)`: overwrite `buf` at offset `off` with
the bytes of `src`. -/
def writeBytes (buf : List Nat) (off : Nat) (src : List Nat) : List Nat :=
  buf.take off ++ src ++ buf.drop (off + src.length)

/-- `xGArr_Verify`: NULL handle gives `InvalidObject`; a present handle whose
signature is not `xGArr_kSignature` gives `InvalidSignature`. -/
def xGArr_Verify : Option xGrowableArray → xGArr_tErr
  | none => xGArr_tErr.InvalidObject
  | some g =>
      if g.mSignature = xGArr_kSignature then xGArr_tErr.NoErr
      else xGArr_tErr.InvalidSignature

/-- `xGArr_New`: allocate the struct and the initial storage of
`inInitialNumItems * inSize` bytes. `allocStructOk`/`allocDataOk` tell whether
the two `malloc` calls succeed. On failure no instance is produced. -/
def xGArr_New (allocStructOk allocDataOk : Bool)
    (inSize inInitialNumItems : Nat) : xGArr_tErr × Option xGrowableArray :=
  if ¬ allocStructOk then (xGArr_tErr.AllocationFailed, none)
  else if ¬ allocDataOk then (xGArr_tErr.AllocationFailed, none)
  else
    (xGArr_tErr.NoErr, some
      { mSignature := xGArr_kSignature
        mnNumItems := 0
        mnMaxNumItems := inInitialNumItems
        mnItemSizeBytes := inSize
        mnMaxSizeBytes := inInitialNumItems * inSize
        mnNext := 0
        mpData := some (mallocBytes (inInitialNumItems * inSize)) })

/-- Body of `xGArr_Add` after the `xGArr_Verify` check: grow (doubling
`mnMaxSizeBytes`, recomputing `mnMaxNumItems`) when `mnNumItems` is not below
`mnMaxNumItems`, then copy `mnItemSizeBytes` bytes of the element into slot
`mnNumItems` and increment `mnNumItems`. `allocOk` tells whether the growth
`malloc` succeeds. -/
def addBody (allocOk : Bool) (g : xGrowableArray) (ipSrc : List Nat) :
    xGArr_tErr × xGrowableArray :=
  if ¬ (g.mnNumItems < g.mnMaxNumItems) then
    if ¬ allocOk then (xGArr_tErr.AllocationFailed, g)
    else
      let pNewStorage : List Nat :=
        writeBytes (mallocBytes (g.mnMaxSizeBytes * 2)) 0
          (readBytes (g.mpData.getD []) 0 g.mnMaxSizeBytes)
      let g1 : xGrowableArray :=
        { g with
          mpData := some pNewStorage
          mnMaxSizeBytes := g.mnMaxSizeBytes * 2
          mnMaxNumItems := g.mnMaxSizeBytes * 2 / g.mnItemSizeBytes }
      (xGArr_tErr.NoErr,
        { g1 with
          mpData := some (writeBytes (g1.mpData.getD [])
            (g1.mnNumItems * g1.mnItemSizeBytes)
            (ipSrc.take g1.mnItemSizeBytes))
          mnNumItems := g1.mnNumItems + 1 })
  else
    (xGArr_tErr.NoErr,
      { g with
        mpData := some (writeBytes (g.mpData.getD [])
          (g.mnNumItems * g.mnItemSizeBytes)
          (ipSrc.take g.mnItemSizeBytes))
        mnNumItems := g.mnNumItems + 1 })

/-- `xGArr_Add`: verify the handle, then run `addBody`. -/
def xGArr_Add (allocOk : Bool) (this : Option xGrowableArray)
    (ipSrc : List Nat) : xGArr_tErr × Option xGrowableArray :=
  match this with
  | none => (xGArr_tErr.InvalidObject, none)
  | some g =>
      if g.mSignature = xGArr_kSignature then
        let r := addBody allocOk g ipSrc
        (r.1, some r.2)
      else (xGArr_tErr.InvalidSignature, some g)

/-- `xGArr_ResetIterator`: verify the handle, then set `mnNext := 0`. -/
def xGArr_ResetIterator (this : Option xGrowableArray) :
    xGArr_tErr × Option xGrowableArray :=
  match this with
  | none => (xGArr_tErr.InvalidObject, none)
  | some g =>
      if g.mSignature = xGArr_kSignature then
        (xGArr_tErr.NoErr, some { g with mnNext := 0 })
      else (xGArr_tErr.InvalidSignature, some g)

/-- Body of `xGArr_NextItem` after the `xGArr_Verify` check: if
`mnNext >= mnNumItems` return `LastItem` unchanged, otherwise copy
`mnItemSizeBytes` bytes of slot `mnNext` out and increment `mnNext`. The third
component is the bytes written to `opDest` (`none` when untouched). -/
def nextBody (g : xGrowableArray) :
    xGArr_tErr × xGrowableArray × Option (List Nat) :=
  if g.mnNext ≥ g.mnNumItems then (xGArr_tErr.LastItem, g, none)
  else
    (xGArr_tErr.NoErr, { g with mnNext := g.mnNext + 1 },
      some (readBytes (g.mpData.getD [])
        (g.mnNext * g.mnItemSizeBytes) g.mnItemSizeBytes))

/-- `xGArr_NextItem`: verify the handle, then run `nextBody`. -/
def xGArr_NextItem (this : Option xGrowableArray) :
    xGArr_tErr × Option xGrowableArray × Option (List Nat) :=
  match this with
  | none => (xGArr_tErr.InvalidObject, none, none)
  | some g =>
      if g.mSignature = xGArr_kSignature then
        let r := nextBody g
        (r.1, some r.2.1, r.2.2)
      else (xGArr_tErr.InvalidSignature, some g, none)

/-- Body of `xGArr_Clear` after the `xGArr_Verify` check: free the storage and
allocate a fresh buffer of the same `mnMaxSizeBytes`. If the `malloc` fails
(`allocOk = false`) the function returns with `mpData` NULL and does not reset
`mnNumItems`/`mnNext`; on success both are reset to 0. -/
def clearBody (allocOk : Bool) (g : xGrowableArray) :
    xGArr_tErr × xGrowableArray :=
  if ¬ allocOk then (xGArr_tErr.AllocationFailed, { g with mpData := none })
  else
    (xGArr_tErr.NoErr,
      { g with
        mpData := some (mallocBytes g.mnMaxSizeBytes)
        mnNumItems := 0
        mnNext := 0 })

/-- `xGArr_Clear`: verify the handle, then run `clearBody`. -/
def xGArr_Clear (allocOk : Bool) (this : Option xGrowableArray) :
    xGArr_tErr × Option xGrowableArray :=
  match this with
  | none => (xGArr_tErr.InvalidObject, none)
  | some g =>
      if g.mSignature = xGArr_kSignature then
        let r := clearBody allocOk g
        (r.1, some r.2)
      else (xGArr_tErr.InvalidSignature, some g)

/-- `xGArr_Delete` takes a pointer to the handle (`iopList`). NULL `iopList`
gives `InvalidObject`; else the handle `*iopList` is verified. On success the
signature is overwritten with `0x1`, the storage and struct are freed, and
`*iopList` is set to NULL. The result is (error, final `*iopList` cell, final
image of the struct memory as seen by a dangling alias: signature trashed and
`mpData` freed). -/
def xGArr_Delete (iopList : Option (Option xGrowableArray)) :
    xGArr_tErr × Option (Option xGrowableArray) × Option xGrowableArray :=
  match iopList with
  | none => (xGArr_tErr.InvalidObject, none, none)
  | some none => (xGArr_tErr.InvalidObject, some none, none)
  | some (some g) =>
      if g.mSignature = xGArr_kSignature then
        (xGArr_tErr.NoErr, some none,
          some { g with mSignature := 0x1, mpData := none })
      else (xGArr_tErr.InvalidSignature, some (some g), some g)

/-- `xGArr_GetErrorString`: out-of-range codes map to the
`InvalidErrorCode` entry. (Codes are the `xGArr_tErr` constructors; the
numeric-range check of the C code is total on them, so the lookup is the
identity on valid codes.) -/
def xGArr_GetErrorString (ieCode : xGArr_tErr) : String :=
  match ieCode with
  | xGArr_tErr.NoErr => "No error."
  | xGArr_tErr.InvalidObject => "Invalid object."
  | xGArr_tErr.InvalidSignature => "Invalid signature."
  | xGArr_tErr.AllocationFailed => "Allocation failed."
  | xGArr_tErr.LastItem => "Last item."
  | xGArr_tErr.InvalidErrorCode => "Invalid error code."

/-! ### Derived notions used to state the claims -/

/-- The bytes of logical element `i`. -/
def itemAt (g : xGrowableArray) (i : Nat) : List Nat :=
  readBytes (g.mpData.getD []) (i * g.mnItemSizeBytes) g.mnItemSizeBytes

/-- The stored elements, in order. -/
def items (g : xGrowableArray) : List (List Nat) :=
  (List.range g.mnNumItems).map (itemAt g)

/-- Append a list of elements by repeated successful `addBody`. -/
def addMany (g : xGrowableArray) (xs : List (List Nat)) : xGrowableArray :=
  match xs with
  | [] => g
  | x :: rest => addMany (addBody true g x).2 rest

/-- Number of growth events triggered while appending `xs`. -/
def growCount (g : xGrowableArray) (xs : List (List Nat)) : Nat :=
  match xs with
  | [] => 0
  | x :: rest =>
      (if g.mnNumItems < g.mnMaxNumItems then 0 else 1) +
        growCount (addBody true g x).2 rest

/-- Run `nextBody` up to `fuel` times, collecting the produced elements,
stopping at the first call that does not return `NoErr`. -/
def drain (fuel : Nat) (g : xGrowableArray) :
    xGrowableArray × List (List Nat) :=
  match fuel with
  | 0 => (g, [])
  | Nat.succ fuel =>
      match nextBody g with
      | (xGArr_tErr.NoErr, g1, some out) =>
          let r := drain fuel g1
          (r.1, out :: r.2)
      | _ => (g, [])

/-- Append a list of elements through the public `xGArr_Add` (all allocations
succeeding), stopping at the first error. -/
def addManyRef (h : Option xGrowableArray) (xs : List (List Nat)) :
    xGArr_tErr × Option xGrowableArray :=
  match xs with
  | [] => (xGArr_tErr.NoErr, h)
  | x :: rest =>
      match xGArr_Add true h x with
      | (xGArr_tErr.NoErr, h1) => addManyRef h1 rest
      | (e, h1) => (e, h1)

/-- Run the public `xGArr_NextItem` up to `fuel` times, collecting the
produced elements, stopping at the first call that does not return `NoErr`. -/
def drainRef (fuel : Nat) (h : Option xGrowableArray) :
    Option xGrowableArray × List (List Nat) :=
  match fuel with
  | 0 => (h, [])
  | Nat.succ fuel =>
      match xGArr_NextItem h with
      | (xGArr_tErr.NoErr, h1, some out) =>
          let r := drainRef fuel h1
          (r.1, out :: r.2)
      | _ => (h, [])

/-- The instance produced by a successful `xGArr_New E C`. -/
def freshArr (E C : Nat) : xGrowableArray :=
  { mSignature := xGArr_kSignature
    mnNumItems := 0
    mnMaxNumItems := C
    mnItemSizeBytes := E
    mnMaxSizeBytes := C * E
    mnNext := 0
    mpData := some (mallocBytes (C * E)) }

/-- Instance states reachable from a successful construction with positive
element size and initial capacity, through appends of `elementSize`-byte
elements (with the growth allocation either succeeding or failing), iterator
resets, iterator steps, and successful clears. -/
inductive Reached : xGrowableArray → Prop where
  | construct (E C : Nat) (hE : 0 < E) (hC : 0 < C) : Reached (freshArr E C)
  | add (g : xGrowableArray) (ok : Bool) (x : List Nat)
      (hx : x.length = g.mnItemSizeBytes) (hg : Reached g) :
      Reached (addBody ok g x).2
  | reset (g : xGrowableArray) (hg : Reached g) :
      Reached { g with mnNext := 0 }
  | next (g : xGrowableArray) (hg : Reached g) : Reached (nextBody g).2.1
  | clear (g : xGrowableArray) (hg : Reached g) : Reached (clearBody true g).2

/-- Data-model invariant of a live instance: positive element size, capacity
at least 1, `count ≤ capacity`, `cursor ≤ count`, storage size equals
`capacity * elementSize`, and an allocated buffer of exactly that length. -/
def inv (g : xGrowableArray) : Prop :=
  0 < g.mnItemSizeBytes ∧
  0 < g.mnMaxNumItems ∧
  g.mnNumItems ≤ g.mnMaxNumItems ∧
  g.mnNext ≤ g.mnNumItems ∧
  g.mnMaxSizeBytes = g.mnMaxNumItems * g.mnItemSizeBytes ∧
  g.mpData.isSome = true ∧
  (g.mpData.getD []).length = g.mnMaxSizeBytes

instance (g : xGrowableArray) : Decidable (inv g) := by
  unfold inv; infer_instance

/-! ### Byte-buffer lemmas -/

theorem length_mallocBytes (n : Nat) : (mallocBytes n).length = n := by
  simp [mallocBytes]

theorem length_writeBytes (buf src : List Nat) (off : Nat)
    (h : off + src.length ≤ buf.length) :
    (writeBytes buf off src).length = buf.length := by
  simp [writeBytes, List.length_take, List.length_drop]
  omega

theorem length_readBytes (buf : List Nat) (off len : Nat)
    (h : off + len ≤ buf.length) :
    (readBytes buf off len).length = len := by
  simp [readBytes, List.length_take, List.length_drop]
  omega

theorem readBytes_writeBytes_self (buf src : List Nat) (off : Nat)
    (h : off ≤ buf.length) :
    readBytes (writeBytes buf off src) off src.length = src := by
  unfold readBytes writeBytes
  rw [List.append_assoc,
    List.drop_left' (by rw [List.length_take]; omega),
    List.take_left' rfl]

theorem readBytes_take (X : List Nat) (off off2 len : Nat)
    (h : off2 + len ≤ off) :
    readBytes (X.take off) off2 len = readBytes X off2 len := by
  unfold readBytes
  rw [List.drop_take, List.take_take]
  congr 1
  omega

theorem readBytes_writeBytes_of_le (buf src : List Nat) (off off2 len : Nat)
    (h1 : off2 + len ≤ off) (h2 : off ≤ buf.length) :
    readBytes (writeBytes buf off src) off2 len = readBytes buf off2 len := by
  rw [← readBytes_take (writeBytes buf off src) off off2 len h1,
      ← readBytes_take buf off off2 len h1]
  congr 1
  unfold writeBytes
  rw [List.append_assoc, List.take_left' (by rw [List.length_take]; omega)]

theorem readBytes_append (buf z : List Nat) (off len : Nat)
    (h : off + len ≤ buf.length) :
    readBytes (buf ++ z) off len = readBytes buf off len := by
  unfold readBytes
  rw [List.drop_append_eq_append_drop, List.take_append_eq_append_take]
  have h0 : off - buf.length = 0 := by omega
  have h1 : len - (List.drop off buf).length = 0 := by
    rw [List.length_drop]; omega
  rw [h0, h1]
  simp

/-! ### Core lemmas about the operation bodies -/

theorem items_length (g : xGrowableArray) : (items g).length = g.mnNumItems := by
  simp [items]

/-- The central lemma about a successful append: `addBody` succeeds, preserves
the invariant, signature, element size and cursor, increments the count,
doubles the capacity exactly when the array was full, and extends the stored
elements by the appended bytes. -/
theorem addBody_spec (g : xGrowableArray) (x : List Nat)
    (hg : inv g) (hx : x.length = g.mnItemSizeBytes) :
    (addBody true g x).1 = xGArr_tErr.NoErr ∧
    inv (addBody true g x).2 ∧
    (addBody true g x).2.mSignature = g.mSignature ∧
    (addBody true g x).2.mnItemSizeBytes = g.mnItemSizeBytes ∧
    (addBody true g x).2.mnNumItems = g.mnNumItems + 1 ∧
    (addBody true g x).2.mnNext = g.mnNext ∧
    (addBody true g x).2.mnMaxNumItems =
      (if g.mnNumItems < g.mnMaxNumItems then g.mnMaxNumItems
        else 2 * g.mnMaxNumItems) ∧
    items (addBody true g x).2 = items g ++ [x] := by
  obtain ⟨hE, hCap, hCnt, hCur, hMax, hSome, hLen⟩ := hg
  obtain ⟨buf, hbuf⟩ := Option.isSome_iff_exists.mp hSome
  have hLen' : buf.length = g.mnMaxSizeBytes := by
    rw [hbuf] at hLen; simpa using hLen
  have hxE : x.take g.mnItemSizeBytes = x := by
    rw [← hx, List.take_length]
  by_cases hlt : g.mnNumItems < g.mnMaxNumItems
  · -- no growth
    have hres : addBody true g x =
        (xGArr_tErr.NoErr,
          { g with
            mpData := some (writeBytes buf
              (g.mnNumItems * g.mnItemSizeBytes) x)
            mnNumItems := g.mnNumItems + 1 }) := by
      simp [addBody, hlt, hbuf, hxE]
    have hin : g.mnNumItems * g.mnItemSizeBytes + x.length ≤ buf.length := by
      have : (g.mnNumItems + 1) * g.mnItemSizeBytes ≤
          g.mnMaxNumItems * g.mnItemSizeBytes :=
        Nat.mul_le_mul_right _ (by omega)
      rw [Nat.succ_mul] at this
      omega
    have hoff : g.mnNumItems * g.mnItemSizeBytes ≤ buf.length := by omega
    rw [hres]
    refine ⟨rfl, ?_, rfl, rfl, rfl, rfl, by simp [hlt], ?_⟩
    · refine ⟨hE, hCap,
        show g.mnNumItems + 1 ≤ g.mnMaxNumItems by omega,
        show g.mnNext ≤ g.mnNumItems + 1 by omega, hMax, rfl, ?_⟩
      show (writeBytes buf (g.mnNumItems * g.mnItemSizeBytes) x).length = _
      rw [length_writeBytes _ _ _ hin, hLen']
    · show (List.range (g.mnNumItems + 1)).map _ = _
      rw [List.range_succ, List.map_append, List.map_cons, List.map_nil]
      congr 1
      · apply List.map_congr_left
        intro i hi
        rw [List.mem_range] at hi
        show readBytes (writeBytes buf (g.mnNumItems * g.mnItemSizeBytes) x)
            (i * g.mnItemSizeBytes) g.mnItemSizeBytes = itemAt g i
        rw [readBytes_writeBytes_of_le _ _ _ _ _ ?_ hoff]
        · simp [itemAt, hbuf]
        · have : (i + 1) * g.mnItemSizeBytes ≤
              g.mnNumItems * g.mnItemSizeBytes :=
            Nat.mul_le_mul_right _ (by omega)
          rw [Nat.succ_mul] at this
          omega
      · show [readBytes (writeBytes buf (g.mnNumItems * g.mnItemSizeBytes) x)
            (g.mnNumItems * g.mnItemSizeBytes) g.mnItemSizeBytes] = [x]
        have hs := readBytes_writeBytes_self buf x
          (g.mnNumItems * g.mnItemSizeBytes) hoff
        rw [hx] at hs
        rw [hs]
  · -- growth: the array is full, the buffer is doubled first
    have hEq : g.mnNumItems = g.mnMaxNumItems := by omega
    have hread : readBytes buf 0 g.mnMaxSizeBytes = buf := by
      unfold readBytes
      rw [List.drop_zero, ← hLen', List.take_length]
    have hpNew : writeBytes (mallocBytes (g.mnMaxSizeBytes * 2)) 0 buf
        = buf ++ List.replicate g.mnMaxSizeBytes (0 : Nat) := by
      unfold writeBytes mallocBytes
      rw [List.take_zero, List.nil_append, List.drop_replicate]
      congr 2
      omega
    have hcap2 : g.mnMaxSizeBytes * 2 / g.mnItemSizeBytes =
        2 * g.mnMaxNumItems := by
      rw [hMax,
        show g.mnMaxNumItems * g.mnItemSizeBytes * 2 =
          2 * g.mnMaxNumItems * g.mnItemSizeBytes by ring]
      exact Nat.mul_div_cancel _ hE
    have hpLen : (buf ++ List.replicate g.mnMaxSizeBytes (0 : Nat)).length =
        g.mnMaxSizeBytes * 2 := by
      rw [List.length_append, List.length_replicate, hLen']; omega
    have hres : addBody true g x =
        (xGArr_tErr.NoErr,
          { g with
            mpData := some (writeBytes
              (buf ++ List.replicate g.mnMaxSizeBytes (0 : Nat))
              (g.mnNumItems * g.mnItemSizeBytes) x)
            mnNumItems := g.mnNumItems + 1
            mnMaxSizeBytes := g.mnMaxSizeBytes * 2
            mnMaxNumItems := g.mnMaxSizeBytes * 2 / g.mnItemSizeBytes }) := by
      simp [addBody, hlt, hbuf, hxE, hread, hpNew]
    have hElem : g.mnItemSizeBytes ≤ g.mnMaxNumItems * g.mnItemSizeBytes := by
      calc g.mnItemSizeBytes = 1 * g.mnItemSizeBytes := by ring
        _ ≤ g.mnMaxNumItems * g.mnItemSizeBytes :=
          Nat.mul_le_mul_right _ (by omega)
    have hcntE : g.mnNumItems * g.mnItemSizeBytes = g.mnMaxSizeBytes := by
      rw [hEq, hMax]
    have hxlen : x.length ≤ g.mnMaxSizeBytes := by
      rw [hx, hMax]; exact hElem
    have hin : g.mnNumItems * g.mnItemSizeBytes + x.length ≤
        (buf ++ List.replicate g.mnMaxSizeBytes (0 : Nat)).length := by
      rw [hpLen, hcntE]; omega
    have hoff : g.mnNumItems * g.mnItemSizeBytes ≤
        (buf ++ List.replicate g.mnMaxSizeBytes (0 : Nat)).length := by
      rw [hpLen, hcntE]; omega
    rw [hres]
    refine ⟨rfl, ?_, rfl, rfl, rfl, rfl, by simp [hlt, hcap2], ?_⟩
    · refine ⟨hE, ?_, ?_,
        show g.mnNext ≤ g.mnNumItems + 1 by omega, ?_, rfl, ?_⟩
      · show 0 < g.mnMaxSizeBytes * 2 / g.mnItemSizeBytes
        rw [hcap2]; omega
      · show g.mnNumItems + 1 ≤ g.mnMaxSizeBytes * 2 / g.mnItemSizeBytes
        rw [hcap2]; omega
      · show g.mnMaxSizeBytes * 2 =
          g.mnMaxSizeBytes * 2 / g.mnItemSizeBytes * g.mnItemSizeBytes
        rw [hcap2, hMax]; ring
      · show (writeBytes (buf ++ List.replicate g.mnMaxSizeBytes (0 : Nat))
            (g.mnNumItems * g.mnItemSizeBytes) x).length = _
        rw [length_writeBytes _ _ _ hin, hpLen]
    · show (List.range (g.mnNumItems + 1)).map _ = _
      rw [List.range_succ, List.map_append, List.map_cons, List.map_nil]
      congr 1
      · apply List.map_congr_left
        intro i hi
        rw [List.mem_range] at hi
        show readBytes (writeBytes
            (buf ++ List.replicate g.mnMaxSizeBytes (0 : Nat))
            (g.mnNumItems * g.mnItemSizeBytes) x)
            (i * g.mnItemSizeBytes) g.mnItemSizeBytes = itemAt g i
        have hi1 : (i + 1) * g.mnItemSizeBytes ≤
            g.mnNumItems * g.mnItemSizeBytes :=
          Nat.mul_le_mul_right _ (by omega)
        rw [Nat.succ_mul] at hi1
        rw [readBytes_writeBytes_of_le _ _ _ _ _ (by omega) hoff]
        rw [readBytes_append _ _ _ _
          (by rw [hLen', hMax]; rw [hEq] at hi1; exact hi1)]
        simp [itemAt, hbuf]
      · show [readBytes (writeBytes
            (buf ++ List.replicate g.mnMaxSizeBytes (0 : Nat))
            (g.mnNumItems * g.mnItemSizeBytes) x)
            (g.mnNumItems * g.mnItemSizeBytes) g.mnItemSizeBytes] = [x]
        have hs := readBytes_writeBytes_self
          (buf ++ List.replicate g.mnMaxSizeBytes (0 : Nat)) x
          (g.mnNumItems * g.mnItemSizeBytes) hoff
        rw [hx] at hs
        rw [hs]

theorem addBody_sig (ok : Bool) (g : xGrowableArray) (x : List Nat) :
    (addBody ok g x).2.mSignature = g.mSignature := by
  unfold addBody
  split
  · split <;> rfl
  · rfl

theorem addBody_full_allocFail (g : xGrowableArray) (x : List Nat)
    (hfull : ¬ g.mnNumItems < g.mnMaxNumItems) :
    addBody false g x = (xGArr_tErr.AllocationFailed, g) := by
  simp [addBody, hfull]

theorem nextBody_end (g : xGrowableArray) (h : g.mnNext ≥ g.mnNumItems) :
    nextBody g = (xGArr_tErr.LastItem, g, none) := by
  simp [nextBody, h]

theorem nextBody_step (g : xGrowableArray) (h : g.mnNext < g.mnNumItems) :
    nextBody g = (xGArr_tErr.NoErr, { g with mnNext := g.mnNext + 1 },
      some (itemAt g g.mnNext)) := by
  simp [nextBody, itemAt, Nat.not_le.mpr h]

theorem drain_zero (g : xGrowableArray) : drain 0 g = (g, []) := rfl

theorem drain_succ_end (fuel : Nat) (g : xGrowableArray)
    (h : g.mnNext ≥ g.mnNumItems) : drain (fuel + 1) g = (g, []) := by
  rw [drain, nextBody_end g h]

theorem drain_succ_step (fuel : Nat) (g : xGrowableArray)
    (h : g.mnNext < g.mnNumItems) :
    drain (fuel + 1) g =
      ((drain fuel { g with mnNext := g.mnNext + 1 }).1,
        itemAt g g.mnNext ::
          (drain fuel { g with mnNext := g.mnNext + 1 }).2) := by
  rw [drain, nextBody_step g h]

theorem items_set_next (g : xGrowableArray) (n : Nat) :
    items { g with mnNext := n } = items g := rfl

theorem drain_spec (fuel : Nat) : ∀ g : xGrowableArray, inv g →
    fuel = g.mnNumItems - g.mnNext →
    drain fuel g =
      ({ g with mnNext := g.mnNumItems }, (items g).drop g.mnNext) := by
  induction fuel with
  | zero =>
      intro g hg hf
      have hc : g.mnNext = g.mnNumItems := by
        obtain ⟨_, _, _, hCur, _, _, _⟩ := hg; omega
      rw [drain_zero]
      have h1 : ({ g with mnNext := g.mnNumItems } : xGrowableArray) = g := by
        cases g
        simp_all
      rw [h1, hc, List.drop_eq_nil_of_le (by rw [items_length])]
  | succ n ih =>
      intro g hg hf
      have hlt : g.mnNext < g.mnNumItems := by
        obtain ⟨_, _, _, hCur, _, _, _⟩ := hg; omega
      have hg' : inv { g with mnNext := g.mnNext + 1 } := by
        obtain ⟨h1, h2, h3, h4, h5, h6, h7⟩ := hg
        exact ⟨h1, h2, h3, by simpa using hlt, h5, h6, h7⟩
      rw [drain_succ_step n g hlt,
        ih { g with mnNext := g.mnNext + 1 } hg' (by simpa using by omega)]
      have hitem : (items g)[g.mnNext]? = some (itemAt g g.mnNext) := by
        rw [List.getElem?_eq_getElem (by rw [items_length]; exact hlt)]
        simp [items, List.getElem_range]
      have hdrop : (items g).drop g.mnNext =
          itemAt g g.mnNext :: (items g).drop (g.mnNext + 1) := by
        rw [List.drop_eq_getElem_cons (by rw [items_length]; exact hlt)]
        congr 1
        have := hitem
        rw [List.getElem?_eq_getElem (by rw [items_length]; exact hlt)] at this
        exact Option.some_injective _ this
      rw [items_set_next]
      exact Prod.ext rfl (by rw [hdrop])

theorem xGArr_Add_valid (ok : Bool) (g : xGrowableArray) (x : List Nat)
    (hs : g.mSignature = xGArr_kSignature) :
    xGArr_Add ok (some g) x =
      ((addBody ok g x).1, some (addBody ok g x).2) := by
  simp [xGArr_Add, hs]

theorem xGArr_NextItem_valid (g : xGrowableArray)
    (hs : g.mSignature = xGArr_kSignature) :
    xGArr_NextItem (some g) =
      ((nextBody g).1, some (nextBody g).2.1, (nextBody g).2.2) := by
  simp [xGArr_NextItem, hs]

theorem xGArr_ResetIterator_valid (g : xGrowableArray)
    (hs : g.mSignature = xGArr_kSignature) :
    xGArr_ResetIterator (some g) =
      (xGArr_tErr.NoErr, some { g with mnNext := 0 }) := by
  simp [xGArr_ResetIterator, hs]

theorem xGArr_Clear_valid (ok : Bool) (g : xGrowableArray)
    (hs : g.mSignature = xGArr_kSignature) :
    xGArr_Clear ok (some g) =
      ((clearBody ok g).1, some (clearBody ok g).2) := by
  simp [xGArr_Clear, hs]

theorem xGArr_New_eq (E C : Nat) :
    xGArr_New true true E C = (xGArr_tErr.NoErr, some (freshArr E C)) := rfl

theorem freshArr_inv (E C : Nat) (hE : 0 < E) (hC : 0 < C) :
    inv (freshArr E C) := by
  refine ⟨hE, hC, by simp [freshArr], by simp [freshArr], rfl, rfl, ?_⟩
  simp [freshArr, mallocBytes]

theorem items_freshArr (E C : Nat) : items (freshArr E C) = [] := by
  simp [items, freshArr]

theorem addMany_spec (xs : List (List Nat)) : ∀ g : xGrowableArray, inv g →
    (∀ x ∈ xs, x.length = g.mnItemSizeBytes) →
    inv (addMany g xs) ∧
    (addMany g xs).mSignature = g.mSignature ∧
    (addMany g xs).mnItemSizeBytes = g.mnItemSizeBytes ∧
    (addMany g xs).mnNumItems = g.mnNumItems + xs.length ∧
    (addMany g xs).mnNext = g.mnNext ∧
    items (addMany g xs) = items g ++ xs := by
  induction xs with
  | nil => intro g hg _; simpa [addMany] using hg
  | cons x rest ih =>
      intro g hg hxs
      have hx : x.length = g.mnItemSizeBytes := hxs x (by simp)
      obtain ⟨h1, h2, h3, h4, h5, h6, h7, h8⟩ := addBody_spec g x hg hx
      have hrest : ∀ y ∈ rest,
          y.length = (addBody true g x).2.mnItemSizeBytes := by
        intro y hy; rw [h4]; exact hxs y (by simp [hy])
      obtain ⟨i1, i2, i3, i4, i5, i6⟩ := ih (addBody true g x).2 h2 hrest
      have hstep : addMany g (x :: rest) =
          addMany (addBody true g x).2 rest := rfl
      rw [hstep]
      refine ⟨i1, by rw [i2, h3], by rw [i3, h4],
        by rw [i4, h5, List.length_cons]; omega,
        by rw [i5, h6], by rw [i6, h8]; simp⟩

theorem addManyRef_addMany (xs : List (List Nat)) :
    ∀ g : xGrowableArray, g.mSignature = xGArr_kSignature → inv g →
    (∀ x ∈ xs, x.length = g.mnItemSizeBytes) →
    addManyRef (some g) xs = (xGArr_tErr.NoErr, some (addMany g xs)) := by
  induction xs with
  | nil => intro g _ _ _; rfl
  | cons x rest ih =>
      intro g hs hg hxs
      have hx : x.length = g.mnItemSizeBytes := hxs x (by simp)
      obtain ⟨h1, h2, h3, h4, h5, h6, h7, h8⟩ := addBody_spec g x hg hx
      have hrest : ∀ y ∈ rest,
          y.length = (addBody true g x).2.mnItemSizeBytes := by
        intro y hy; rw [h4]; exact hxs y (by simp [hy])
      have hadd := xGArr_Add_valid true g x hs
      rw [h1] at hadd
      show (match xGArr_Add true (some g) x with
        | (xGArr_tErr.NoErr, h1) => addManyRef h1 rest
        | (e, h1) => (e, h1)) = _
      rw [hadd]
      show addManyRef (some (addBody true g x).2) rest = _
      rw [ih (addBody true g x).2 (by rw [h3, hs]) h2 hrest]
      rfl

theorem drainRef_drain (fuel : Nat) :
    ∀ g : xGrowableArray, g.mSignature = xGArr_kSignature →
    drainRef fuel (some g) = (some (drain fuel g).1, (drain fuel g).2) ∧
    (drain fuel g).1.mSignature = xGArr_kSignature := by
  induction fuel with
  | zero => intro g hs; exact ⟨rfl, hs⟩
  | succ n ih =>
      intro g hs
      by_cases hend : g.mnNext ≥ g.mnNumItems
      · have hn := xGArr_NextItem_valid g hs
        rw [nextBody_end g hend] at hn
        constructor
        · show (match xGArr_NextItem (some g) with
            | (xGArr_tErr.NoErr, h1, some out) =>
                ((drainRef n h1).1, out :: (drainRef n h1).2)
            | _ => (some g, [])) = _
          rw [hn, drain_succ_end n g hend]
        · rw [drain_succ_end n g hend]; exact hs
      · have hlt : g.mnNext < g.mnNumItems := by omega
        have hn := xGArr_NextItem_valid g hs
        rw [nextBody_step g hlt] at hn
        obtain ⟨ih1, ih2⟩ := ih { g with mnNext := g.mnNext + 1 } hs
        constructor
        · show (match xGArr_NextItem (some g) with
            | (xGArr_tErr.NoErr, h1, some out) =>
                ((drainRef n h1).1, out :: (drainRef n h1).2)
            | _ => (some g, [])) = _
          rw [hn]
          show ((drainRef n (some { g with mnNext := g.mnNext + 1 })).1,
              itemAt g g.mnNext ::
                (drainRef n (some { g with mnNext := g.mnNext + 1 })).2) = _
          rw [ih1, drain_succ_step n g hlt]
        · rw [drain_succ_step n g hlt]
          exact ih2

theorem addBody_ok_irrel (ok : Bool) (g : xGrowableArray) (x : List Nat)
    (hlt : g.mnNumItems < g.mnMaxNumItems) :
    addBody ok g x = addBody true g x := by
  simp [addBody, hlt]

theorem clearBody_ok (g : xGrowableArray) :
    clearBody true g = (xGArr_tErr.NoErr,
      { g with
        mpData := some (mallocBytes g.mnMaxSizeBytes)
        mnNumItems := 0
        mnNext := 0 }) := rfl

theorem clearBody_fail (g : xGrowableArray) :
    clearBody false g =
      (xGArr_tErr.AllocationFailed, { g with mpData := none }) := rfl

/-- Every reachable state satisfies the data-model invariant. -/
theorem reached_inv (g : xGrowableArray) (hg : Reached g) : inv g := by
  induction hg with
  | construct E C hE hC => exact freshArr_inv E C hE hC
  | add g ok x hx hg ih =>
      cases ok with
      | true => exact (addBody_spec g x ih hx).2.1
      | false =>
          by_cases hlt : g.mnNumItems < g.mnMaxNumItems
          · rw [addBody_ok_irrel false g x hlt]
            exact (addBody_spec g x ih hx).2.1
          · rw [addBody_full_allocFail g x hlt]
            exact ih
  | reset g hg ih =>
      obtain ⟨h1, h2, h3, h4, h5, h6, h7⟩ := ih
      exact ⟨h1, h2, h3, Nat.zero_le _, h5, h6, h7⟩
  | next g hg ih =>
      by_cases hlt : g.mnNext < g.mnNumItems
      · rw [nextBody_step g hlt]
        obtain ⟨h1, h2, h3, h4, h5, h6, h7⟩ := ih
        exact ⟨h1, h2, h3, hlt, h5, h6, h7⟩
      · rw [nextBody_end g (by omega)]
        exact ih
  | clear g hg ih =>
      rw [clearBody_ok]
      obtain ⟨h1, h2, h3, h4, h5, h6, h7⟩ := ih
      exact ⟨h1, h2, Nat.zero_le _, Nat.le_refl _, h5, rfl,
        by simp [mallocBytes]⟩

/-- Capacity after a run of successful appends: the initial capacity times
two to the number of growth events. -/
theorem addMany_capacity (xs : List (List Nat)) : ∀ g : xGrowableArray,
    inv g → (∀ x ∈ xs, x.length = g.mnItemSizeBytes) →
    (addMany g xs).mnMaxNumItems =
      g.mnMaxNumItems * 2 ^ growCount g xs := by
  induction xs with
  | nil => intro g _ _; simp [addMany, growCount]
  | cons x rest ih =>
      intro g hg hxs
      have hx : x.length = g.mnItemSizeBytes := hxs x (by simp)
      obtain ⟨h1, h2, h3, h4, h5, h6, h7, h8⟩ := addBody_spec g x hg hx
      have hrest : ∀ y ∈ rest,
          y.length = (addBody true g x).2.mnItemSizeBytes := by
        intro y hy; rw [h4]; exact hxs y (by simp [hy])
      have hstep : addMany g (x :: rest) =
          addMany (addBody true g x).2 rest := rfl
      have hgrow : growCount g (x :: rest) =
          (if g.mnNumItems < g.mnMaxNumItems then 0 else 1) +
            growCount (addBody true g x).2 rest := rfl
      rw [hstep, ih (addBody true g x).2 h2 hrest, h7, hgrow]
      by_cases hlt : g.mnNumItems < g.mnMaxNumItems
      · simp [hlt]
      · simp only [hlt, if_false]
        rw [pow_add, pow_one]
        ring

/-! ### Claim theorems -/

/-- C3: Add is atomic under growth failure: on a valid full instance
(`count = capacity`), if the allocation of the doubled buffer fails,
`xGArr_Add` returns `AllocationFailed` and the instance — count, capacity,
storage buffer and every stored byte — is exactly the pre-call state. -/
theorem xGArr_C3_add_growth_atomic (g : xGrowableArray) (x : List Nat)
    (hs : g.mSignature = xGArr_kSignature)
    (hfull : g.mnNumItems = g.mnMaxNumItems) :
    xGArr_Add false (some g) x = (xGArr_tErr.AllocationFailed, some g) := by
  rw [xGArr_Add_valid false g x hs, addBody_full_allocFail g x (by omega)]

/-- Witness for C3 at a concrete full instance (element size 1, capacity 1,
one element stored). -/
theorem xGArr_C3_witness :
    xGArr_Add false (some (addBody true (freshArr 1 1) [5]).2) [7] =
      (xGArr_tErr.AllocationFailed,
        some (addBody true (freshArr 1 1) [5]).2) :=
  xGArr_C3_add_growth_atomic _ [7] (by decide) (by decide)

/-- C5: every operation other than Construct runs the validity check first:
a NULL handle yields `InvalidObject`, a present handle whose signature is not
the expected tag (as left by Destroy, which overwrites the signature) yields
`InvalidSignature`, and in both cases the operation returns exactly the
verification error with all state unchanged. -/
theorem xGArr_C5_verify_first :
    xGArr_Verify none = xGArr_tErr.InvalidObject ∧
    (∀ g : xGrowableArray, g.mSignature ≠ xGArr_kSignature →
      xGArr_Verify (some g) = xGArr_tErr.InvalidSignature) ∧
    (∀ g : xGrowableArray, g.mSignature = xGArr_kSignature →
      ∃ img, (xGArr_Delete (some (some g))).2.2 = some img ∧
        img.mSignature ≠ xGArr_kSignature) ∧
    (∀ h : Option xGrowableArray, xGArr_Verify h ≠ xGArr_tErr.NoErr →
      (∀ ok x, xGArr_Add ok h x = (xGArr_Verify h, h)) ∧
      xGArr_ResetIterator h = (xGArr_Verify h, h) ∧
      xGArr_NextItem h = (xGArr_Verify h, h, none) ∧
      (∀ ok, xGArr_Clear ok h = (xGArr_Verify h, h)) ∧
      xGArr_Delete (some h) = (xGArr_Verify h, some h, h)) := by
  refine ⟨rfl, ?_, ?_, ?_⟩
  · intro g hsig
    simp [xGArr_Verify, hsig]
  · intro g hsig
    refine ⟨{ g with mSignature := 0x1, mpData := none }, ?_, ?_⟩
    · simp [xGArr_Delete, hsig]
    · show (0x1 : Nat) ≠ xGArr_kSignature
      decide
  · intro h hv
    match h with
    | none =>
        exact ⟨fun ok x => rfl, rfl, rfl, fun ok => rfl, rfl⟩
    | some g =>
        have hsig : g.mSignature ≠ xGArr_kSignature := by
          intro hc
          exact hv (by simp [xGArr_Verify, hc])
        have hvv : xGArr_Verify (some g) = xGArr_tErr.InvalidSignature := by
          simp [xGArr_Verify, hsig]
        rw [hvv]
        exact ⟨fun ok x => by simp [xGArr_Add, hsig],
          by simp [xGArr_ResetIterator, hsig],
          by simp [xGArr_NextItem, hsig],
          fun ok => by simp [xGArr_Clear, hsig],
          by simp [xGArr_Delete, hsig]⟩

/-- Witness for C5 at a concrete wrong-signature handle and at NULL. -/
theorem xGArr_C5_witness :
    xGArr_Add true (some { freshArr 1 1 with mSignature := 1 }) [0] =
      (xGArr_Verify (some { freshArr 1 1 with mSignature := 1 }),
        some { freshArr 1 1 with mSignature := 1 }) ∧
    xGArr_NextItem none = (xGArr_Verify none, none, none) :=
  ⟨(xGArr_C5_verify_first.2.2.2 _ (by decide)).1 true [0],
    (xGArr_C5_verify_first.2.2.2 none (by decide)).2.2.1⟩

/-- C7: exhaustion is idempotent and non-mutating: on a valid instance with
`cursor ≥ count`, `xGArr_NextItem` returns `LastItem` (EndOfSequence) with
the state unchanged, and any number of further calls return the same result
on the same unchanged state. -/
theorem xGArr_C7_exhaustion_idempotent (g : xGrowableArray)
    (hs : g.mSignature = xGArr_kSignature) (h : g.mnNext ≥ g.mnNumItems) :
    xGArr_NextItem (some g) = (xGArr_tErr.LastItem, some g, none) ∧
    ∀ k : Nat, (fun o => (xGArr_NextItem o).2.1)^[k] (some g) = some g ∧
      xGArr_NextItem ((fun o => (xGArr_NextItem o).2.1)^[k] (some g)) =
        (xGArr_tErr.LastItem, some g, none) := by
  have h1 : xGArr_NextItem (some g) = (xGArr_tErr.LastItem, some g, none) := by
    rw [xGArr_NextItem_valid g hs, nextBody_end g h]
  have hf : (fun o => (xGArr_NextItem o).2.1) (some g) = some g := by
    show (xGArr_NextItem (some g)).2.1 = some g
    rw [h1]
  refine ⟨h1, ?_⟩
  intro k
  induction k with
  | zero => exact ⟨rfl, h1⟩
  | succ n ihn =>
      refine ⟨?_, ?_⟩
      · rw [Function.iterate_succ_apply', ihn.1]
        exact hf
      · rw [Function.iterate_succ_apply', ihn.1, h1]
        exact h1

/-- Witness for C7 at a concrete exhausted instance. -/
theorem xGArr_C7_witness :
    xGArr_NextItem (some (freshArr 1 1)) =
      (xGArr_tErr.LastItem, some (freshArr 1 1), none) ∧
    (fun o => (xGArr_NextItem o).2.1)^[3] (some (freshArr 1 1)) =
      some (freshArr 1 1) :=
  ⟨(xGArr_C7_exhaustion_idempotent (freshArr 1 1) (by decide) (by decide)).1,
    ((xGArr_C7_exhaustion_idempotent (freshArr 1 1) (by decide)
      (by decide)).2 3).1⟩

/-- C8: successful Clear sets `count = 0` and `cursor = 0`, preserves the
capacity and the storage size exactly (the fresh buffer has the same
`capacity * elementSize` bytes), and a subsequent ResetIterator-plus-traversal
yields zero elements: the first NextItem returns EndOfSequence. -/
theorem xGArr_C8_clear_success (g : xGrowableArray)
    (hs : g.mSignature = xGArr_kSignature) (hg : inv g) :
    ∃ gC, xGArr_Clear true (some g) = (xGArr_tErr.NoErr, some gC) ∧
      gC.mnNumItems = 0 ∧ gC.mnNext = 0 ∧
      gC.mnMaxNumItems = g.mnMaxNumItems ∧
      gC.mnMaxSizeBytes = g.mnMaxSizeBytes ∧
      (gC.mpData.getD []).length = gC.mnMaxNumItems * gC.mnItemSizeBytes ∧
      ∃ gR, xGArr_ResetIterator (some gC) = (xGArr_tErr.NoErr, some gR) ∧
        xGArr_NextItem (some gR) = (xGArr_tErr.LastItem, some gR, none) := by
  obtain ⟨hE, hCap, hCnt, hCur, hMax, hSome, hLen⟩ := hg
  refine ⟨{ g with
    mpData := some (mallocBytes g.mnMaxSizeBytes)
    mnNumItems := 0
    mnNext := 0 }, ?_, rfl, rfl, rfl, rfl, ?_, ?_⟩
  · rw [xGArr_Clear_valid true g hs, clearBody_ok]
  · show (mallocBytes g.mnMaxSizeBytes).length =
      g.mnMaxNumItems * g.mnItemSizeBytes
    rw [length_mallocBytes, hMax]
  · refine ⟨{ g with
      mpData := some (mallocBytes g.mnMaxSizeBytes)
      mnNumItems := 0
      mnNext := 0 }, ?_, ?_⟩
    · exact xGArr_ResetIterator_valid _ hs
    · rw [xGArr_NextItem_valid { g with
        mpData := some (mallocBytes g.mnMaxSizeBytes)
        mnNumItems := 0
        mnNext := 0 } hs,
        nextBody_end { g with
          mpData := some (mallocBytes g.mnMaxSizeBytes)
          mnNumItems := 0
          mnNext := 0 } (Nat.le_refl 0)]

/-- Witness for C8 at a concrete valid instance. -/
theorem xGArr_C8_witness :
    ∃ gC, xGArr_Clear true (some (freshArr 2 3)) =
        (xGArr_tErr.NoErr, some gC) ∧
      gC.mnNumItems = 0 ∧ gC.mnNext = 0 ∧
      gC.mnMaxNumItems = (freshArr 2 3).mnMaxNumItems ∧
      gC.mnMaxSizeBytes = (freshArr 2 3).mnMaxSizeBytes ∧
      (gC.mpData.getD []).length = gC.mnMaxNumItems * gC.mnItemSizeBytes ∧
      ∃ gR, xGArr_ResetIterator (some gC) = (xGArr_tErr.NoErr, some gR) ∧
        xGArr_NextItem (some gR) = (xGArr_tErr.LastItem, some gR, none) :=
  xGArr_C8_clear_success (freshArr 2 3) (by decide) (by decide)

/-- C9: Clear's failure path is destructive: on a valid instance, if the
fresh allocation fails, Clear returns `AllocationFailed` with the old storage
already released and `mpData` NULL, while `count` and `cursor` keep their
pre-call values. -/
theorem xGArr_C9_clear_failure_destructive (g : xGrowableArray)
    (hs : g.mSignature = xGArr_kSignature) :
    xGArr_Clear false (some g) =
      (xGArr_tErr.AllocationFailed, some { g with mpData := none }) ∧
    ({ g with mpData := none } : xGrowableArray).mpData = none ∧
    ({ g with mpData := none } : xGrowableArray).mnNumItems = g.mnNumItems ∧
    ({ g with mpData := none } : xGrowableArray).mnNext = g.mnNext := by
  refine ⟨?_, rfl, rfl, rfl⟩
  rw [xGArr_Clear_valid false g hs, clearBody_fail]

/-- Witness for C9 at a concrete valid instance. -/
theorem xGArr_C9_witness :
    xGArr_Clear false (some (freshArr 1 1)) =
      (xGArr_tErr.AllocationFailed,
        some { freshArr 1 1 with mpData := none }) ∧
    ({ freshArr 1 1 with mpData := none } : xGrowableArray).mpData = none ∧
    ({ freshArr 1 1 with mpData := none } :
      xGrowableArray).mnNumItems = (freshArr 1 1).mnNumItems ∧
    ({ freshArr 1 1 with mpData := none } :
      xGrowableArray).mnNext = (freshArr 1 1).mnNext :=
  xGArr_C9_clear_failure_destructive (freshArr 1 1) (by decide)

/-- C10: successful Destroy writes NULL into the caller's handle cell (besides
trashing the signature), so any subsequent operation through that handle —
including a second Destroy through the same pointer-to-handle — fails with
`InvalidObject` and mutates nothing. -/
theorem xGArr_C10_destroy_nulls_handle (g : xGrowableArray)
    (hs : g.mSignature = xGArr_kSignature) :
    xGArr_Delete (some (some g)) =
      (xGArr_tErr.NoErr, some none,
        some { g with mSignature := 0x1, mpData := none }) ∧
    xGArr_Delete (some none) = (xGArr_tErr.InvalidObject, some none, none) ∧
    (∀ ok x, xGArr_Add ok none x = (xGArr_tErr.InvalidObject, none)) ∧
    xGArr_ResetIterator none = (xGArr_tErr.InvalidObject, none) ∧
    xGArr_NextItem none = (xGArr_tErr.InvalidObject, none, none) ∧
    (∀ ok, xGArr_Clear ok none = (xGArr_tErr.InvalidObject, none)) := by
  refine ⟨?_, rfl, fun ok x => rfl, rfl, rfl, fun ok => rfl⟩
  simp [xGArr_Delete, hs]

/-- Witness for C10 at a concrete valid instance. -/
theorem xGArr_C10_witness :
    xGArr_Delete (some (some (freshArr 1 1))) =
      (xGArr_tErr.NoErr, some none,
        some { freshArr 1 1 with mSignature := 1, mpData := none }) ∧
    xGArr_Delete (some none) = (xGArr_tErr.InvalidObject, some none, none) ∧
    xGArr_Add true none [0] = (xGArr_tErr.InvalidObject, none) :=
  ⟨(xGArr_C10_destroy_nulls_handle (freshArr 1 1) (by decide)).1,
    (xGArr_C10_destroy_nulls_handle (freshArr 1 1) (by decide)).2.1,
    (xGArr_C10_destroy_nulls_handle (freshArr 1 1) (by decide)).2.2.1
      true [0]⟩

/-- C1: after constructing with element size `E > 0` and initial capacity
`C > 0` and appending `N` elements of `E` bytes each through `xGArr_Add`,
`count = N`, and a fresh `xGArr_ResetIterator` followed by repeated
`xGArr_NextItem` yields exactly the `N` appended byte strings, in append
order and byte-for-byte equal, with the `(N+1)`-th call returning `LastItem`
(EndOfSequence) on unchanged state. -/
theorem xGArr_C1_append_iterate (E C : Nat) (xs : List (List Nat))
    (hE : 0 < E) (hC : 0 < C) (hxs : ∀ x ∈ xs, x.length = E) :
    ∃ gN gR gF : xGrowableArray,
      addManyRef (xGArr_New true true E C).2 xs =
        (xGArr_tErr.NoErr, some gN) ∧
      gN.mnNumItems = xs.length ∧
      xGArr_ResetIterator (some gN) = (xGArr_tErr.NoErr, some gR) ∧
      drainRef xs.length (some gR) = (some gF, xs) ∧
      xGArr_NextItem (some gF) = (xGArr_tErr.LastItem, some gF, none) := by
  have hfresh := freshArr_inv E C hE hC
  obtain ⟨a1, a2, a3, a4, a5, a6⟩ := addMany_spec xs (freshArr E C) hfresh hxs
  have hsigN : (addMany (freshArr E C) xs).mSignature = xGArr_kSignature := by
    rw [a2]; rfl
  have hinvR : inv { addMany (freshArr E C) xs with mnNext := 0 } := by
    obtain ⟨q1, q2, q3, q4, q5, q6, q7⟩ := a1
    exact ⟨q1, q2, q3, Nat.zero_le _, q5, q6, q7⟩
  have hitems : items { addMany (freshArr E C) xs with mnNext := 0 } = xs := by
    rw [items_set_next, a6, items_freshArr, List.nil_append]
  have hfuel : xs.length =
      ({ addMany (freshArr E C) xs with mnNext := 0 }).mnNumItems -
        ({ addMany (freshArr E C) xs with mnNext := 0 }).mnNext := by
    show xs.length = (addMany (freshArr E C) xs).mnNumItems - 0
    rw [a4]
    show xs.length = 0 + xs.length - 0
    omega
  have hdrain := drain_spec xs.length _ hinvR hfuel
  obtain ⟨hdref, hsigF⟩ := drainRef_drain xs.length
    { addMany (freshArr E C) xs with mnNext := 0 } hsigN
  refine ⟨addMany (freshArr E C) xs,
    { addMany (freshArr E C) xs with mnNext := 0 },
    (drain xs.length { addMany (freshArr E C) xs with mnNext := 0 }).1,
    ?_, ?_, ?_, ?_, ?_⟩
  · exact addManyRef_addMany xs (freshArr E C) rfl hfresh hxs
  · rw [a4]
    show 0 + xs.length = xs.length
    omega
  · exact xGArr_ResetIterator_valid _ hsigN
  · rw [hdref, hdrain]
    refine Prod.ext rfl ?_
    show (items { addMany (freshArr E C) xs with mnNext := 0 }).drop 0 = xs
    rw [List.drop_zero, hitems]
  · have hge : (drain xs.length
        { addMany (freshArr E C) xs with mnNext := 0 }).1.mnNext ≥
        (drain xs.length
          { addMany (freshArr E C) xs with mnNext := 0 }).1.mnNumItems := by
      rw [hdrain]
    rw [xGArr_NextItem_valid _ hsigF, nextBody_end _ hge]

/-- Witness for C1 at the spec's concrete scenario: element size 4, initial
capacity 2, three appends (forcing one growth), full traversal. -/
theorem xGArr_C1_witness :
    ∃ gN gR gF : xGrowableArray,
      addManyRef (xGArr_New true true 4 2).2
          [[1, 0, 0, 0], [2, 0, 0, 0], [3, 0, 0, 0]] =
        (xGArr_tErr.NoErr, some gN) ∧
      gN.mnNumItems = 3 ∧
      xGArr_ResetIterator (some gN) = (xGArr_tErr.NoErr, some gR) ∧
      drainRef 3 (some gR) =
        (some gF, [[1, 0, 0, 0], [2, 0, 0, 0], [3, 0, 0, 0]]) ∧
      xGArr_NextItem (some gF) = (xGArr_tErr.LastItem, some gF, none) :=
  xGArr_C1_append_iterate 4 2 [[1, 0, 0, 0], [2, 0, 0, 0], [3, 0, 0, 0]]
    (by decide) (by decide) (by decide)

/-- C2: growth exactly doubles capacity: from a fresh instance with capacity
`C`, after the appends in `xs` the capacity is `C * 2^k` where `k` is the
number of growth events; under the invariant the growth branch triggers
exactly when `count = capacity`; the doubled byte size divides exactly by the
element size; and a single Add doubles the capacity when the array is full
and preserves it otherwise. -/
theorem xGArr_C2_growth_doubles (E C : Nat) (xs : List (List Nat))
    (hE : 0 < E) (hC : 0 < C) (hxs : ∀ x ∈ xs, x.length = E) :
    (addMany (freshArr E C) xs).mnMaxNumItems =
      C * 2 ^ growCount (freshArr E C) xs ∧
    (∀ g : xGrowableArray, inv g →
      ((¬ g.mnNumItems < g.mnMaxNumItems) ↔
        g.mnNumItems = g.mnMaxNumItems)) ∧
    (∀ g : xGrowableArray, inv g →
      g.mnMaxSizeBytes * 2 % g.mnItemSizeBytes = 0) ∧
    (∀ (g : xGrowableArray) (x : List Nat), inv g →
      x.length = g.mnItemSizeBytes →
      (addBody true g x).2.mnMaxNumItems =
        (if g.mnNumItems < g.mnMaxNumItems then g.mnMaxNumItems
          else 2 * g.mnMaxNumItems)) := by
  refine ⟨?_, ?_, ?_, ?_⟩
  · exact addMany_capacity xs (freshArr E C) (freshArr_inv E C hE hC) hxs
  · intro g hg
    obtain ⟨_, _, hCnt, _, _, _, _⟩ := hg
    exact ⟨fun h => by omega, fun h => by omega⟩
  · intro g hg
    obtain ⟨_, _, _, _, hMax, _, _⟩ := hg
    rw [hMax, show g.mnMaxNumItems * g.mnItemSizeBytes * 2 =
      g.mnMaxNumItems * 2 * g.mnItemSizeBytes by ring]
    exact Nat.mul_mod_left _ _
  · intro g x hg hx
    exact (addBody_spec g x hg hx).2.2.2.2.2.2.1

/-- Witness for C2 at element size 4, initial capacity 2, three appends:
one growth event, capacity 4. -/
theorem xGArr_C2_witness :
    (addMany (freshArr 4 2)
        [[1, 0, 0, 0], [2, 0, 0, 0], [3, 0, 0, 0]]).mnMaxNumItems =
      2 * 2 ^ growCount (freshArr 4 2)
        [[1, 0, 0, 0], [2, 0, 0, 0], [3, 0, 0, 0]] :=
  (xGArr_C2_growth_doubles 4 2 [[1, 0, 0, 0], [2, 0, 0, 0], [3, 0, 0, 0]]
    (by decide) (by decide) (by decide)).1

/-- C4: every state reachable from a successful construction with positive
element size and initial capacity through Add (growth allocation succeeding
or failing), ResetIterator, NextItem and successful Clear satisfies the
data-model invariants: `count ≤ capacity`, `cursor ≤ count`,
`capacity ≥ 1`, and an allocated storage buffer of exactly
`capacity * elementSize` bytes. -/
theorem xGArr_C4_invariants (g : xGrowableArray) (hg : Reached g) :
    g.mnNumItems ≤ g.mnMaxNumItems ∧
    g.mnNext ≤ g.mnNumItems ∧
    1 ≤ g.mnMaxNumItems ∧
    g.mpData.isSome = true ∧
    (g.mpData.getD []).length = g.mnMaxNumItems * g.mnItemSizeBytes := by
  obtain ⟨h1, h2, h3, h4, h5, h6, h7⟩ := reached_inv g hg
  exact ⟨h3, h4, h2, h6, by rw [h7, h5]⟩

/-- Witness for C4 at a concrete reachable state: construct (1, 2), append
one element, step the iterator. -/
theorem xGArr_C4_witness :
    (nextBody (addBody true (freshArr 1 2) [9]).2).2.1.mnNumItems ≤
      (nextBody (addBody true (freshArr 1 2) [9]).2).2.1.mnMaxNumItems ∧
    (nextBody (addBody true (freshArr 1 2) [9]).2).2.1.mnNext ≤
      (nextBody (addBody true (freshArr 1 2) [9]).2).2.1.mnNumItems ∧
    1 ≤ (nextBody (addBody true (freshArr 1 2) [9]).2).2.1.mnMaxNumItems ∧
    (nextBody (addBody true (freshArr 1 2) [9]).2).2.1.mpData.isSome = true ∧
    ((nextBody (addBody true (freshArr 1 2) [9]).2).2.1.mpData.getD
        []).length =
      (nextBody (addBody true (freshArr 1 2) [9]).2).2.1.mnMaxNumItems *
        (nextBody (addBody true (freshArr 1 2) [9]).2).2.1.mnItemSizeBytes :=
  xGArr_C4_invariants _
    (Reached.next _ (Reached.add _ true [9] (by decide)
      (Reached.construct 1 2 (by decide) (by decide))))

/-- C6: the iterator is a live view, not a snapshot: on a valid instance
whose traversal is exhausted (`cursor = count`, `xGArr_NextItem` returns
EndOfSequence), a successful `xGArr_Add` leaves the cursor in place, and the
continued traversal now returns the newly appended element. -/
theorem xGArr_C6_live_view (g : xGrowableArray) (x : List Nat)
    (hs : g.mSignature = xGArr_kSignature) (hg : inv g)
    (hx : x.length = g.mnItemSizeBytes) (hcur : g.mnNext = g.mnNumItems) :
    xGArr_NextItem (some g) = (xGArr_tErr.LastItem, some g, none) ∧
    ∃ g1, xGArr_Add true (some g) x = (xGArr_tErr.NoErr, some g1) ∧
      g1.mnNext = g.mnNext ∧
      (xGArr_NextItem (some g1)).1 = xGArr_tErr.NoErr ∧
      (xGArr_NextItem (some g1)).2.2 = some x := by
  obtain ⟨h1, h2, h3, h4, h5, h6, h7, h8⟩ := addBody_spec g x hg hx
  have hend : xGArr_NextItem (some g) =
      (xGArr_tErr.LastItem, some g, none) := by
    rw [xGArr_NextItem_valid g hs, nextBody_end g (by omega)]
  have hadd := xGArr_Add_valid true g x hs
  rw [h1] at hadd
  have hsig1 : (addBody true g x).2.mSignature = xGArr_kSignature := by
    rw [h3, hs]
  have hlt1 : (addBody true g x).2.mnNext <
      (addBody true g x).2.mnNumItems := by
    rw [h6, h5]; omega
  have hitem : itemAt (addBody true g x).2 ((addBody true g x).2.mnNext) =
      x := by
    have hgetlt : g.mnNumItems < (items (addBody true g x).2).length := by
      rw [items_length, h5]; omega
    have e1 : (items (addBody true g x).2)[g.mnNumItems]? =
        some (itemAt (addBody true g x).2 g.mnNumItems) := by
      rw [List.getElem?_eq_getElem hgetlt]
      simp [items]
    have e2 : (items g ++ [x])[g.mnNumItems]? = some x := by
      rw [List.getElem?_append_right (by rw [items_length])]
      rw [items_length]
      simp
    rw [h8, e2] at e1
    rw [h6, hcur]
    exact (Option.some_injective _ e1).symm
  refine ⟨hend, (addBody true g x).2, hadd, h6, ?_, ?_⟩
  · have hnext := xGArr_NextItem_valid (addBody true g x).2 hsig1
    rw [nextBody_step _ hlt1] at hnext
    rw [hnext]
  · have hnext := xGArr_NextItem_valid (addBody true g x).2 hsig1
    rw [nextBody_step _ hlt1] at hnext
    rw [hnext]
    show some (itemAt (addBody true g x).2 ((addBody true g x).2.mnNext)) =
      some x
    rw [hitem]

/-- Witness for C6 at a concrete instance: element size 1, capacity 2, one
element appended and already consumed by the iterator, then a live append. -/
theorem xGArr_C6_witness :
    xGArr_NextItem (some (nextBody (addBody true (freshArr 1 2) [4]).2).2.1) =
      (xGArr_tErr.LastItem,
        some (nextBody (addBody true (freshArr 1 2) [4]).2).2.1, none) ∧
    ∃ g1, xGArr_Add true
        (some (nextBody (addBody true (freshArr 1 2) [4]).2).2.1) [6] =
        (xGArr_tErr.NoErr, some g1) ∧
      g1.mnNext = (nextBody (addBody true (freshArr 1 2) [4]).2).2.1.mnNext ∧
      (xGArr_NextItem (some g1)).1 = xGArr_tErr.NoErr ∧
      (xGArr_NextItem (some g1)).2.2 = some [6] :=
  xGArr_C6_live_view _ [6] (by decide) (by decide) (by decide) (by decide)

end XGArr
